import Mathlib

/-!
Verification of the homelab-apps Minecraft orchestrator backend.

This file shallowly embeds the orchestrator's registry, lifecycle operations,
launch synthesizer heuristics and log aggregation
(src/minecraft/backend/orchestrator/{runtime,state,utils}.py and
providers/modrinth.py) as pure Lean functions over explicit state, and proves
the spec's testable properties about them.

Modelling conventions:
- Python dicts keyed by instance id become association lists; the JSON-file
  registry becomes a `List Instance` threaded through each operation.
- Docker (container lookup, stop, run, log fetch) becomes an explicit
  environment inside `World`; calls that can raise carry Boolean failure flags.
- Python string operations are re-implemented structurally over `List Char`
  so that concrete witnesses evaluate inside the kernel.
- External I/O that cannot affect the verified control flow (CPU/RAM stats,
  game-protocol pings, filesystem writes of server.properties/eula.txt) is
  omitted; each omission is noted at the definition it concerns.
-/

deriving instance DecidableEq for Except

namespace Orchestrator

/-! ## Generic list and string helpers -/

/-- Python `l[-n:]` for `n ≥ 1`: the last `n` elements (all of `l` when
`n ≥ l.length`).  Note Python's `l[-0:]` is the whole list instead; call
sites model that case explicitly. -/
def lastN (n : Nat) (l : List α) : List α := l.drop (l.length - n)

/-- Substring test on character lists: does `pat` occur contiguously in
`hay`?  Models Python's `pat in hay`. -/
def containsSub (hay pat : List Char) : Bool :=
  match hay with
  | [] => pat.isEmpty
  | _ :: t => pat.isPrefixOf hay || containsSub t pat

/-- Python `pat in s` on strings. -/
def strContains (s pat : String) : Bool := containsSub s.data pat.data

/-- Lower-cased character list of a string (Python `s.lower()`), kept as
`List Char` so it reduces in the kernel. -/
def lowerData (s : String) : List Char := s.data.map Char.toLower

/-- Python `s.lower()` as a string. -/
def toLowerStr (s : String) : String := String.mk (lowerData s)

/-- Python `pat in s.lower()` where `pat` is already lower-case. -/
def lowerContains (s pat : String) : Bool := containsSub (lowerData s) pat.data

/-- Association-list lookup, modelling Python `d.get(k)`. -/
def lookupAssoc (l : List (String × β)) (k : String) : Option β :=
  match l with
  | [] => none
  | (a, b) :: t => if a == k then some b else lookupAssoc t k

/-- Association-list store, modelling Python `d[k] = v`. -/
def setAssoc (l : List (String × β)) (k : String) (v : β) : List (String × β) :=
  match l with
  | [] => [(k, v)]
  | (a, b) :: t => if a == k then (k, v) :: t else (a, b) :: setAssoc t k v

/-- Join lines with newlines, modelling how the docker SDK returns a log
stream that the code then `splitlines()`s; we keep logs as a line list and
re-join only to run substring matches over the whole recent output. -/
def joinLines : List String → String
  | [] => ""
  | [l] => l
  | l :: rest => l ++ "\n" ++ joinLines rest

/-- The consecutive-duplicate filter from `tail_logs` (runtime.py:718-721):
keep a line unless it equals the previously kept line.  `last?` is
`deduped[-1]` of the Python loop. -/
def dedupConsecAux (last? : Option String) : List String → List String
  | [] => []
  | l :: rest =>
    if last? = some l then dedupConsecAux last? rest
    else l :: dedupConsecAux (some l) rest

/-- Collapse immediately-repeated lines (the `deduped` list of `tail_logs`). -/
def dedupConsec (ls : List String) : List String := dedupConsecAux none ls

/-! ## Status constants (runtime.py:53-58) -/

def STATUS_PREPARING : String := "PREPARING"
def STATUS_OFFLINE : String := "OFFLINE"
def STATUS_STARTING : String := "STARTING"
def STATUS_STOPPING : String := "STOPPING"
def STATUS_ONLINE : String := "ONLINE"
def STATUS_ERROR : String := "ERROR"

/-! ## Data model -/

/-- An instance record as held in `instances.json` (runtime.py:247-265).
Fields the verified claims never read (display name, project/version ids,
file URL, directory paths) are kept only where an operation writes them. -/
structure Instance where
  id : String
  status : String := STATUS_PREPARING
  containerName : String := ""
  port : Nat := 25565
  ramMb : Nat := 4096
  minecraftVersion : Option String := none
  versionNumber : Option String := none
  source : Option String := none
  startCommand : Option (List String) := none
  entryTarget : Option String := none
deriving DecidableEq, Repr

/-- A docker container as the orchestrator observes it.  `logs` is the full
decoded line list of the container's output; `container.logs(tail=n)` is
modelled as the last `n` of them.  `reloadFails` models `container.reload()`
raising (instance_status treats that as not running); `logsFail` models
`container.logs()` raising. -/
structure Container where
  running : Bool := false
  reloadFails : Bool := false
  logsFail : Bool := false
  logs : List String := []
deriving DecidableEq, Repr

/-- Errors surfaced by the orchestrator (`OrchestratorError` in state.py plus
the distinct messages raised in runtime.py). -/
inductive OrchError where
  | notFound
  | containerNotRunning
  | dockerError
  | commandDetectFailed
  | pullFailed
  | runFailed
deriving DecidableEq, Repr

/-- The orchestrator's world: the persisted registry (`instances.json`), the
in-memory per-instance log buffers, the docker daemon's container table, and
Boolean oracles for the external calls that can raise.  `statusLog` is a
ghost trace recording every status persisted through `_set_status`, used to
state pass-through properties; it does not influence any computation. -/
structure World where
  instances : List Instance := []
  logBuffers : List (String × List String) := []
  containers : List (String × Container) := []
  dockerUnavailable : Bool := false
  stopFails : Bool := false
  pullFails : Bool := false
  runFails : Bool := false
  detectOutcome : Except String (List String × Option String) := Except.ok ([], none)
  statusLog : List (String × String) := []
deriving DecidableEq, Repr

/-! ## Registry operations (state.py:45-74) -/

/-- `get_instance`: first record with the given id. -/
def getInstance (w : World) (id : String) : Option Instance :=
  w.instances.find? (fun i => i.id == id)

/-- `upsert_instance` on the raw collection: drop any record with the same
id, then append the new record. -/
def upsertList (l : List Instance) (inst : Instance) : List Instance :=
  l.filter (fun i => !(i.id == inst.id)) ++ [inst]

/-- `upsert_instance` at the world level. -/
def upsertWorld (w : World) (inst : Instance) : World :=
  { w with instances := upsertList w.instances inst }

/-- `_log_line` (state.py:70-74): append to the per-instance buffer, keeping
only the last 2000 lines. -/
def logLine (w : World) (id msg : String) : World :=
  let buf := (lookupAssoc w.logBuffers id).getD []
  { w with logBuffers := setAssoc w.logBuffers id (lastN 2000 (buf ++ [msg])) }

/-- `_set_status` (runtime.py:213-217): write the status into the record and
persist it.  Also appends to the ghost `statusLog` trace. -/
def setStatus (w : World) (inst : Instance) (st : String) : World × Instance :=
  let inst' := { inst with status := st }
  ({ upsertWorld w inst' with statusLog := w.statusLog ++ [(inst'.id, st)] }, inst')

/-- `_container_for` (runtime.py:292-297), given that the docker client was
obtained (`dockerUnavailable` is checked by each caller first, since
`_docker_client` raises before any lookup can happen). -/
def containerFor (w : World) (inst : Instance) : Option Container :=
  lookupAssoc w.containers inst.containerName

/-- Current per-instance retained log buffer. -/
def bufferOf (w : World) (id : String) : List String :=
  (lookupAssoc w.logBuffers id).getD []

/-! ## Readiness and log filtering (runtime.py:186-199, 314-329) -/

/-- `_container_ready`: the last 200 log lines, lower-cased, must contain a
readiness signature: the normal "Done (...)! For help, type "help"" banner,
or the slow-loader "Dedicated server took ... seconds to load" banner.  A
failing `container.logs()` call yields False. -/
def containerReady (c : Container) : Bool :=
  if c.logsFail then false
  else
    let raw := lowerData (joinLines (lastN 200 c.logs))
    (containsSub raw "done (".data && containsSub raw "for help, type \"help\"".data)
      || (containsSub raw "dedicated server took".data
            && containsSub raw "seconds to load".data)

/-- `_should_hide_perf_line`: TPS/perf spam filtered out of tailed logs. -/
def shouldHidePerfLine (line : String) : Bool :=
  let lower := lowerData line
  if containsSub lower "mean tick time".data && containsSub lower "mean tps".data then true
  else if containsSub lower "tps".data && containsSub lower "ms/tick".data then true
  else if containsSub lower "unknown or incomplete command".data
          && (containsSub lower "neoforge tps".data || containsSub lower "forge tps".data) then true
  else if containsSub lower "neoforge tps<--".data || containsSub lower "forge tps<--".data then true
  else false

/-- The running flag `instance_status` derives from `container.reload()` and
`attrs["State"]["Running"]`; a reload exception means "not running". -/
def effectiveRunning (c : Container) : Bool := c.running && !c.reloadFails

/-! ## instance_status (runtime.py:548-696)

CPU/RAM statistics, the game-protocol ping and the player caps are gathered
best-effort with all failures swallowed (runtime.py:614-672); they never
influence the status transition or the registry write, so the model returns
only the status string. -/

def instanceStatus (w : World) (id : String) : (Except OrchError String) × World :=
  match getInstance w id with
  | none =>
    -- Unknown id: a default OFFLINE payload, not an error (runtime.py:561-572).
    (Except.ok STATUS_OFFLINE, w)
  | some inst =>
    if w.dockerUnavailable then (Except.error OrchError.dockerError, w)
    else
      let status := inst.status
      match containerFor w inst with
      | none =>
        -- No container: PREPARING and ERROR are never overridden here;
        -- anything else becomes OFFLINE (runtime.py:590-601).
        if status == STATUS_PREPARING || status == STATUS_ERROR then
          (Except.ok status, w)
        else if !(status == STATUS_OFFLINE) then
          (Except.ok STATUS_OFFLINE, upsertWorld w { inst with status := STATUS_OFFLINE })
        else
          (Except.ok STATUS_OFFLINE, w)
      | some c =>
        -- Container exists (runtime.py:606-696).
        let running := effectiveRunning c
        let status' :=
          if !running then
            if !(status == STATUS_ERROR) then STATUS_OFFLINE else status
          else if status == STATUS_STARTING then
            if containerReady c then STATUS_ONLINE else STATUS_STARTING
          else if status == STATUS_OFFLINE || status == STATUS_PREPARING then
            STATUS_ONLINE
          else status
        (Except.ok status', upsertWorld w { inst with status := status' })

/-! ## stop_instance (runtime.py:462-477) -/

/-- Remove a container from the daemon's table. -/
def removeContainerW (w : World) (name : String) : World :=
  { w with containers := w.containers.filter (fun p => !(p.fst == name)) }

def stopInstance (w : World) (id : String) : (Except OrchError String) × World :=
  match getInstance w id with
  | none => (Except.error OrchError.notFound, w)
  | some inst =>
    if w.dockerUnavailable then (Except.error OrchError.dockerError, w)
    else
      match containerFor w inst with
      | none =>
        let (w1, _) := setStatus w inst STATUS_OFFLINE
        (Except.ok STATUS_OFFLINE, w1)
      | some _ =>
        -- try: set STOPPING, stop, remove; any exception is swallowed
        -- (runtime.py:468-474), then OFFLINE is always written.
        let (w1, inst1) := setStatus w inst STATUS_STOPPING
        let w2 := if w.stopFails then w1 else removeContainerW w1 inst.containerName
        let (w3, _) := setStatus w2 inst1 STATUS_OFFLINE
        (Except.ok STATUS_OFFLINE, w3)

/-! ## start_instance (runtime.py:332-459)

The filesystem preparation steps (directory migration, server.properties /
whitelist / ops defaults, eula.txt, user_jvm_args.txt handling) only touch
the server directory tree, never the registry or the returned status, and
are omitted.  The provider's `generate_start_command` is the `detectOutcome`
oracle (its Modrinth implementation is verified separately below); the image
pull and container run are Boolean failure oracles.  The Java image choice
itself is the pure `selectJavaImage` verified below; its registry side
effect (caching a newly detected minecraft_version) is not replayed here
since no start-path claim reads it. -/

def startInstance (w : World) (id : String) : (Except OrchError String) × World :=
  match getInstance w id with
  | none => (Except.error OrchError.notFound, w)
  | some inst =>
    if w.dockerUnavailable then (Except.error OrchError.dockerError, w)
    else
      match containerFor w inst with
      | some c =>
        if c.running then (Except.ok STATUS_ONLINE, w)
        else startRest w inst true
      | none => startRest w inst false
where
  startRest (w : World) (inst : Instance) (staleContainer : Bool) :
      (Except OrchError String) × World :=
    match w.detectOutcome with
    | Except.error _ =>
      (Except.error OrchError.commandDetectFailed,
        logLine w inst.id "[FAIL] Could not detect start command")
    | Except.ok (cmd, entry) =>
      let w1 := upsertWorld w { inst with startCommand := some cmd, entryTarget := entry }
      let w2 := if staleContainer then removeContainerW w1 inst.containerName else w1
      let w3 := logLine w2 inst.id "[INFO] Starting server container…"
      if w.pullFails then (Except.error OrchError.pullFailed, w3)
      else if w.runFails then
        (Except.error OrchError.runFailed,
          logLine w3 inst.id "[FAIL] Failed to start container")
      else
        let w4 := { w3 with
          containers := setAssoc w3.containers inst.containerName { running := true } }
        let (w5, _) := setStatus w4 { inst with startCommand := some cmd, entryTarget := entry }
          STATUS_STARTING
        (Except.ok STATUS_STARTING, w5)

/-! ## send_command (runtime.py:729-745) -/

def sendCommand (w : World) (id cmdText : String) : (Except OrchError Unit) × World :=
  match getInstance w id with
  | none => (Except.error OrchError.notFound, w)
  | some inst =>
    if w.dockerUnavailable then (Except.error OrchError.dockerError, w)
    else
      match containerFor w inst with
      | none => (Except.error OrchError.containerNotRunning, w)
      | some _ =>
        -- docker exec writing to the server's stdin: external effect only.
        (Except.ok (), w)

/-! ## tail_logs (runtime.py:699-726) -/

/-- The docker engine's `logs(tail=t)`: the last `t` lines (`t = 0` returns
nothing). -/
def dockerTailFetch (t : Nat) (ls : List String) : List String :=
  if t = 0 then [] else lastN t ls

/-- The fresh container output `tail_logs` merges behind the retained
buffer: fetched with `tail=t`, perf-spam filtered; a failing log fetch is
swallowed and contributes nothing (runtime.py:708-715). -/
def tailSourceLines (w : World) (inst : Instance) (t : Nat) : List String :=
  match containerFor w inst with
  | none => []
  | some c =>
    if c.logsFail then []
    else (dockerTailFetch t c.logs).filter (fun l => !shouldHidePerfLine l)

def tailLogs (w : World) (id : String) (t : Nat) : (Except OrchError (List String)) × World :=
  match getInstance w id with
  | none => (Except.ok [], w)
  | some inst =>
    if w.dockerUnavailable then (Except.error OrchError.dockerError, w)
    else
      let deduped := dedupConsec (bufferOf w id ++ tailSourceLines w inst t)
      let w' := { w with logBuffers := setAssoc w.logBuffers id (lastN 2000 deduped) }
      -- Python `deduped[-tail:]`: for tail = 0 this is the WHOLE list.
      (Except.ok (if t = 0 then deduped else lastN t deduped), w')

/-! ## delete_instance (runtime.py:748-764)

The directory removals (`shutil.rmtree(..., ignore_errors=True)`) touch only
the filesystem and cannot fail the operation; they are omitted. -/

def deleteInstance (w : World) (id : String) : World :=
  match getInstance w id with
  | none => w
  | some _ =>
    -- stop_instance is attempted and OrchestratorError swallowed
    -- (runtime.py:752-755); the partially-updated world is kept either way.
    let w1 := (stopInstance w id).snd
    let w2 := { w1 with logBuffers := w1.logBuffers.filter (fun p => !(p.fst == id)) }
    { w2 with instances := w2.instances.filter (fun i => !(i.id == id)) }

/-! ## Registry lemmas -/

theorem find?_filter_ne (l : List Instance) (id : String) :
    (l.filter (fun i => !(i.id == id))).find? (fun i => i.id == id) = none := by
  induction l with
  | nil => rfl
  | cons a t ih =>
    by_cases h : a.id == id
    · simpa [List.filter_cons, h] using ih
    · simp [List.filter_cons, h, List.find?, ih]

theorem find?_upsertList (l : List Instance) (inst : Instance) (id : String)
    (h : inst.id = id) :
    (upsertList l inst).find? (fun i => i.id == id) = some inst := by
  subst h
  unfold upsertList
  induction l with
  | nil => simp [List.find?]
  | cons a t ih =>
    by_cases h : a.id == inst.id
    · simpa [List.filter_cons, h] using ih
    · simpa [List.filter_cons, h, List.find?] using ih

theorem getInstance_upsertWorld (w : World) (inst : Instance) (id : String)
    (h : inst.id = id) : getInstance (upsertWorld w inst) id = some inst :=
  find?_upsertList w.instances inst id h

theorem getInstance_id {w : World} {id : String} {inst : Instance}
    (h : getInstance w id = some inst) : inst.id = id := by
  have := List.find?_some h
  simpa using this

/-! ## Claim theorems -/

/-- C1: for an instance whose registry status is STARTING and whose container
exists and is running, a status poll transitions to ONLINE exactly when the
container's recent log output matches a readiness signature (the normal
"Done (...)! For help, type \"help\"" banner or the slow-loader "Dedicated
server took ... seconds to load" banner); otherwise the status remains
STARTING.  The registry is updated to the same value the poll returns. -/
theorem c1_starting_poll_online_iff_ready
    (w : World) (id : String) (inst : Instance) (c : Container)
    (hGet : getInstance w id = some inst)
    (hStat : inst.status = STATUS_STARTING)
    (hDock : w.dockerUnavailable = false)
    (hCont : containerFor w inst = some c)
    (hRun : effectiveRunning c = true) :
    (instanceStatus w id).fst
        = Except.ok (if containerReady c then STATUS_ONLINE else STATUS_STARTING)
      ∧ getInstance (instanceStatus w id).snd id
        = some { inst with
            status := if containerReady c then STATUS_ONLINE else STATUS_STARTING }
      ∧ ((instanceStatus w id).fst = Except.ok STATUS_ONLINE ↔ containerReady c = true) := by
  have hid : inst.id = id := getInstance_id hGet
  unfold instanceStatus
  rw [hGet]
  simp only [hDock, Bool.false_eq_true, if_false, hCont, hRun, hStat]
  by_cases hr : containerReady c
  · simp only [hr, if_true, STATUS_STARTING, STATUS_ONLINE]
    refine ⟨rfl, ?_, by simp⟩
    exact getInstance_upsertWorld _ _ _ hid
  · simp only [hr, if_false, STATUS_STARTING, STATUS_ONLINE]
    refine ⟨rfl, ?_, by simp⟩
    exact getInstance_upsertWorld _ _ _ hid

/-- C2: an instance in ERROR is never moved to ONLINE by a status poll,
whatever the container state (absent, stopped, running, or the docker daemon
unreachable); the registry record keeps status ERROR after the poll. -/
theorem c2_error_sticky_under_poll
    (w : World) (id : String) (inst : Instance)
    (hGet : getInstance w id = some inst)
    (hStat : inst.status = STATUS_ERROR) :
    (instanceStatus w id).fst ≠ Except.ok STATUS_ONLINE
      ∧ ∀ inst', getInstance (instanceStatus w id).snd id = some inst' →
          inst'.status = STATUS_ERROR := by
  have hid : inst.id = id := getInstance_id hGet
  unfold instanceStatus
  rw [hGet]
  by_cases hDock : w.dockerUnavailable
  · simp only [hDock, if_true]
    exact ⟨by simp, fun inst' h => by rw [hGet] at h; cases h; exact hStat⟩
  · simp only [hDock, Bool.false_eq_true, if_false]
    cases hCont : containerFor w inst with
    | none =>
      have hcond : (inst.status == STATUS_PREPARING || inst.status == STATUS_ERROR) = true := by
        rw [hStat]; decide
      simp only [hcond, if_true]
      refine ⟨?_, fun inst' h => ?_⟩
      · rw [hStat]; simp [STATUS_ONLINE, STATUS_ERROR]
      · simp only at h
        rw [hGet] at h; cases h; exact hStat
    | some c =>
      have hne : (inst.status == STATUS_STARTING) = false := by
        rw [hStat]; decide
      have hne2 : (inst.status == STATUS_OFFLINE) = false := by
        rw [hStat]; decide
      have hne3 : (inst.status == STATUS_PREPARING) = false := by
        rw [hStat]; decide
      have herr : (inst.status == STATUS_ERROR) = true := by
        rw [hStat]; decide
      cases hr : effectiveRunning c with
      | false =>
        simp only [hr, Bool.not_false, if_true, herr, Bool.not_true,
          Bool.false_eq_true, if_false]
        refine ⟨by rw [hStat]; simp [STATUS_ONLINE, STATUS_ERROR], fun inst' h => ?_⟩
        rw [getInstance_upsertWorld _ _ _ hid] at h
        cases h; exact hStat
      | true =>
        simp only [hr, Bool.not_true, Bool.false_eq_true, if_false, hne, hne2, hne3,
          Bool.or_self]
        refine ⟨by rw [hStat]; simp [STATUS_ONLINE, STATUS_ERROR], fun inst' h => ?_⟩
        rw [getInstance_upsertWorld _ _ _ hid] at h
        cases h; exact hStat

/-- C3: when the container exists but is no longer running, the next status
poll returns OFFLINE and persists OFFLINE in the registry — for every prior
status except ERROR, which is preserved — so an instance whose container
crashed right after start is never left stuck in STARTING. -/
theorem c3_stopped_container_poll_offline
    (w : World) (id : String) (inst : Instance) (c : Container)
    (hGet : getInstance w id = some inst)
    (hDock : w.dockerUnavailable = false)
    (hCont : containerFor w inst = some c)
    (hRun : effectiveRunning c = false) :
    (instanceStatus w id).fst
        = Except.ok (if inst.status = STATUS_ERROR then STATUS_ERROR else STATUS_OFFLINE)
      ∧ getInstance (instanceStatus w id).snd id
        = some { inst with
            status := if inst.status = STATUS_ERROR then STATUS_ERROR else STATUS_OFFLINE } := by
  have hid : inst.id = id := getInstance_id hGet
  unfold instanceStatus
  rw [hGet]
  simp only [hDock, Bool.false_eq_true, if_false, hCont, hRun, Bool.not_false, if_true]
  by_cases herr : inst.status = STATUS_ERROR
  · have h1 : (!(inst.status == STATUS_ERROR)) = false := by
      simp [beq_iff_eq, herr]
    simp only [h1, Bool.false_eq_true, if_false, if_pos herr]
    refine ⟨by rw [herr], ?_⟩
    rw [← herr]
    exact getInstance_upsertWorld w { inst with status := inst.status } id hid
  · have h1 : (!(inst.status == STATUS_ERROR)) = true := by
      simp [beq_iff_eq, herr]
    simp only [h1, if_true, if_neg herr]
    exact ⟨trivial, getInstance_upsertWorld w { inst with status := STATUS_OFFLINE } id hid⟩

theorem deleteInstance_noop {w : World} {id : String} (h : getInstance w id = none) :
    deleteInstance w id = w := by
  unfold deleteInstance
  rw [h]

/-- C4: delete_instance is total and idempotent: it succeeds on any id
(including ids that never existed or were already deleted), and after any
call the registry holds no record with that id, so a repeated delete is a
no-op. -/
theorem c4_delete_idempotent_total (w : World) (id : String) :
    getInstance (deleteInstance w id) id = none
      ∧ deleteInstance (deleteInstance w id) id = deleteInstance w id := by
  cases h : getInstance w id with
  | none =>
    rw [deleteInstance_noop h]
    exact ⟨h, deleteInstance_noop h⟩
  | some inst =>
    have h1 : getInstance (deleteInstance w id) id = none := by
      unfold deleteInstance
      rw [h]
      exact find?_filter_ne _ id
    exact ⟨h1, deleteInstance_noop h1⟩

/-- C5: for an existing instance (with the docker client obtainable),
stop_instance always returns OFFLINE and persists OFFLINE, even when the
container stop/remove call raises (`stopFails` is unconstrained); when a
container exists the persisted status trace passes through STOPPING and
ends at OFFLINE, so the instance is never left stuck in STOPPING. -/
theorem c5_stop_always_offline
    (w : World) (id : String) (inst : Instance)
    (hGet : getInstance w id = some inst)
    (hDock : w.dockerUnavailable = false) :
    (stopInstance w id).fst = Except.ok STATUS_OFFLINE
      ∧ getInstance (stopInstance w id).snd id = some { inst with status := STATUS_OFFLINE }
      ∧ (stopInstance w id).snd.statusLog
          = w.statusLog ++
              (if (containerFor w inst).isSome then
                [(id, STATUS_STOPPING), (id, STATUS_OFFLINE)]
              else [(id, STATUS_OFFLINE)]) := by
  have hid : inst.id = id := getInstance_id hGet
  unfold stopInstance
  rw [hGet]
  simp only [hDock, Bool.false_eq_true, if_false]
  cases hCont : containerFor w inst with
  | none =>
    simp only [setStatus, Option.isSome_none, Bool.false_eq_true, if_false]
    refine ⟨trivial, ?_, by simp [upsertWorld, hid]⟩
    exact getInstance_upsertWorld _ _ _ hid
  | some c =>
    simp only [setStatus, Option.isSome_some, if_true]
    cases hsf : w.stopFails with
    | false =>
      simp only [Bool.false_eq_true, if_false]
      refine ⟨trivial, ?_, by simp [upsertWorld, removeContainerW, hid]⟩
      exact getInstance_upsertWorld _ _ _ hid
    | true =>
      simp only [if_true]
      refine ⟨trivial, ?_, by simp [upsertWorld, hid]⟩
      exact getInstance_upsertWorld _ _ _ hid

/-- C9 (amended): an unknown instance id never crashes any operation: start,
stop and send-command surface it as a not-found error with the world
untouched, while status and tail return benign defaults (an OFFLINE payload
and an empty line list) rather than errors. -/
theorem c9_unknown_id_nonfatal (w : World) (id : String)
    (hGet : getInstance w id = none) :
    startInstance w id = (Except.error OrchError.notFound, w)
      ∧ stopInstance w id = (Except.error OrchError.notFound, w)
      ∧ (∀ cmdText, sendCommand w id cmdText = (Except.error OrchError.notFound, w))
      ∧ instanceStatus w id = (Except.ok STATUS_OFFLINE, w)
      ∧ (∀ n, tailLogs w id n = (Except.ok [], w)) := by
  refine ⟨?_, ?_, fun cmdText => ?_, ?_, fun n => ?_⟩
  · unfold startInstance; rw [hGet]
  · unfold stopInstance; rw [hGet]
  · unfold sendCommand; rw [hGet]
  · unfold instanceStatus; rw [hGet]
  · unfold tailLogs; rw [hGet]

/-! ## Concrete witnesses for the runtime claims -/

def instW1 : Instance := { id := "srv-a", status := STATUS_STARTING, containerName := "mc-srv-a" }

def contW1 : Container :=
  { running := true
    logs := ["[12:00:00] [Server thread/INFO]: Done (12.345s)! For help, type \"help\""] }

def wrldW1 : World := { instances := [instW1], containers := [("mc-srv-a", contW1)] }

/-- Witness for C1, which is also the spec's Scenario C: a STARTING instance
whose running container printed the Done banner. -/
theorem c1_witness :
    getInstance wrldW1 "srv-a" = some instW1
      ∧ instW1.status = STATUS_STARTING
      ∧ wrldW1.dockerUnavailable = false
      ∧ containerFor wrldW1 instW1 = some contW1
      ∧ effectiveRunning contW1 = true
      ∧ ((instanceStatus wrldW1 "srv-a").fst
            = Except.ok (if containerReady contW1 then STATUS_ONLINE else STATUS_STARTING)
          ∧ getInstance (instanceStatus wrldW1 "srv-a").snd "srv-a"
            = some { instW1 with
                status := if containerReady contW1 then STATUS_ONLINE else STATUS_STARTING }
          ∧ ((instanceStatus wrldW1 "srv-a").fst = Except.ok STATUS_ONLINE
              ↔ containerReady contW1 = true)) :=
  ⟨by decide, by decide, rfl, by decide, rfl,
    c1_starting_poll_online_iff_ready wrldW1 "srv-a" instW1 contW1
      (by decide) (by decide) rfl (by decide) rfl⟩

def instW2 : Instance := { id := "srv-b", status := STATUS_ERROR, containerName := "mc-srv-b" }

def wrldW2 : World := { instances := [instW2] }

/-- Witness for C2: a poll on an ERROR instance with no container. -/
theorem c2_witness :
    getInstance wrldW2 "srv-b" = some instW2
      ∧ instW2.status = STATUS_ERROR
      ∧ ((instanceStatus wrldW2 "srv-b").fst ≠ Except.ok STATUS_ONLINE
          ∧ ∀ inst', getInstance (instanceStatus wrldW2 "srv-b").snd "srv-b" = some inst' →
              inst'.status = STATUS_ERROR) :=
  ⟨by decide, by decide,
    c2_error_sticky_under_poll wrldW2 "srv-b" instW2 (by decide) (by decide)⟩

def instW3 : Instance := { id := "srv-c", status := STATUS_STARTING, containerName := "mc-srv-c" }

def contW3 : Container := { running := false }

def wrldW3 : World := { instances := [instW3], containers := [("mc-srv-c", contW3)] }

/-- Witness for C3, which is also the spec's Scenario D: a STARTING instance
whose container exited immediately polls to OFFLINE. -/
theorem c3_witness :
    getInstance wrldW3 "srv-c" = some instW3
      ∧ wrldW3.dockerUnavailable = false
      ∧ containerFor wrldW3 instW3 = some contW3
      ∧ effectiveRunning contW3 = false
      ∧ ((instanceStatus wrldW3 "srv-c").fst
            = Except.ok (if instW3.status = STATUS_ERROR then STATUS_ERROR else STATUS_OFFLINE)
          ∧ getInstance (instanceStatus wrldW3 "srv-c").snd "srv-c"
            = some { instW3 with
                status := if instW3.status = STATUS_ERROR then STATUS_ERROR
                  else STATUS_OFFLINE }) :=
  ⟨by decide, rfl, by decide, rfl,
    c3_stopped_container_poll_offline wrldW3 "srv-c" instW3 contW3
      (by decide) rfl (by decide) rfl⟩

def instW5 : Instance := { id := "srv-d", status := STATUS_ONLINE, containerName := "mc-srv-d" }

def contW5 : Container := { running := true }

def wrldW5 : World :=
  { instances := [instW5], containers := [("mc-srv-d", contW5)], stopFails := true }

/-- Witness for C5: stopping a running instance whose docker stop call
raises still lands on OFFLINE, passing through STOPPING. -/
theorem c5_witness :
    getInstance wrldW5 "srv-d" = some instW5
      ∧ wrldW5.dockerUnavailable = false
      ∧ ((stopInstance wrldW5 "srv-d").fst = Except.ok STATUS_OFFLINE
          ∧ getInstance (stopInstance wrldW5 "srv-d").snd "srv-d"
            = some { instW5 with status := STATUS_OFFLINE }
          ∧ (stopInstance wrldW5 "srv-d").snd.statusLog
            = wrldW5.statusLog ++
                (if (containerFor wrldW5 instW5).isSome then
                  [("srv-d", STATUS_STOPPING), ("srv-d", STATUS_OFFLINE)]
                else [("srv-d", STATUS_OFFLINE)])) :=
  ⟨by decide, rfl, c5_stop_always_offline wrldW5 "srv-d" instW5 (by decide) rfl⟩

def wrldW9 : World := { instances := [{ id := "srv-x" }] }

/-- Witness for C9 as amended: operations on an id absent from a nonempty
registry. -/
theorem c9_witness :
    getInstance wrldW9 "srv-y" = none
      ∧ (startInstance wrldW9 "srv-y" = (Except.error OrchError.notFound, wrldW9)
          ∧ stopInstance wrldW9 "srv-y" = (Except.error OrchError.notFound, wrldW9)
          ∧ (∀ cmdText, sendCommand wrldW9 "srv-y" cmdText
              = (Except.error OrchError.notFound, wrldW9))
          ∧ instanceStatus wrldW9 "srv-y" = (Except.ok STATUS_OFFLINE, wrldW9)
          ∧ (∀ n, tailLogs wrldW9 "srv-y" n = (Except.ok [], wrldW9))) :=
  ⟨by decide, c9_unknown_id_nonfatal wrldW9 "srv-y" (by decide)⟩

def wrldC9 : World := {}

/-! ## String utilities for the launch synthesizer (utils.py / modrinth.py)

These re-implement the Python string/path operations the synthesizer uses,
structurally over `List Char` so they evaluate in the kernel. -/

/-- Python `s.split(sep)` for a single-character separator, producing empty
segments like Python does. -/
def splitOnCharAux (sep : Char) : List Char → List Char → List (List Char)
  | [], acc => [acc.reverse]
  | c :: rest, acc =>
    if c == sep then acc.reverse :: splitOnCharAux sep rest []
    else splitOnCharAux sep rest (c :: acc)

def splitOnChar (sep : Char) (cs : List Char) : List (List Char) :=
  splitOnCharAux sep cs []

/-- Python `s.isdigit()` (ASCII): nonempty and all digits. -/
def isDigits (cs : List Char) : Bool := !cs.isEmpty && cs.all Char.isDigit

/-- Python `int(s)` on a digit string. -/
def natOfDigits (cs : List Char) : Nat :=
  cs.foldl (fun a c => a * 10 + (c.toNat - 48)) 0

/-- Python `s.strip()`. -/
def stripStr (s : String) : String :=
  String.mk (((s.data.dropWhile Char.isWhitespace).reverse.dropWhile
    Char.isWhitespace).reverse)

def lastIndexOfCharAux (c : Char) : List Char → Nat → Option Nat → Option Nat
  | [], _, best => best
  | x :: rest, i, best =>
    lastIndexOfCharAux c rest (i + 1) (if x == c then some i else best)

/-- `pathlib.PurePath.suffix`: from the last dot, unless the dot is leading
or trailing (CPython: `0 < i < len(name) - 1`). -/
def suffixOf (name : String) : String :=
  let cs := name.data
  match lastIndexOfCharAux '.' cs 0 none with
  | none => ""
  | some i => if 0 < i ∧ i < cs.length - 1 then String.mk (cs.drop i) else ""

def firstOccurAux (pat : List Char) : List Char → Nat → Option Nat
  | [], _ => if pat.isEmpty then some 0 else none
  | l@(_ :: rest), i =>
    if pat.isPrefixOf l then some i else firstOccurAux pat rest (i + 1)

def lastOccurAux (pat : List Char) : List Char → Nat → Option Nat → Option Nat
  | [], _, best => best
  | l@(_ :: rest), i, best =>
    lastOccurAux pat rest (i + 1) (if pat.isPrefixOf l then some i else best)

/-- Python `s.split(pat, 1)[1]`; every call site has already checked that
`pat` occurs (the glob match), so the no-occurrence case is unreachable. -/
def afterFirstOccur (pat : List Char) (cs : List Char) : List Char :=
  match firstOccurAux pat cs 0 with
  | some i => cs.drop (i + pat.length)
  | none => []

/-- Python `s.rsplit(pat, 1)[0]`: everything before the last occurrence of
`pat`, or all of `s` when `pat` does not occur. -/
def dropFromLastOccur (pat : List Char) (cs : List Char) : List Char :=
  match lastOccurAux pat cs 0 none with
  | none => cs
  | some i => cs.take i

/-- Join path components with "/" (`PurePath.as_posix` on a relative path). -/
def joinSep (sep : String) : List String → String
  | [] => ""
  | [p] => p
  | p :: rest => p ++ sep ++ joinSep sep rest

/-! ## Server-directory filesystem model

`rglob` results become a `List FsFile` in scan order; paths are stored
relative to the server root (the source sorts on `len(p.parts)` of the
absolute path, which differs from the relative length by the constant
`len(root.parts)`, so orderings agree).  Directories are not modelled: every
script/jar the synthesizer inspects is a file. -/

structure FsFile where
  path : List String
  text : String := ""
deriving DecidableEq, Repr

/-- The dependency section of a parsed `modrinth.index.json`
(`json.loads` is library behaviour; the parse result is carried directly). -/
structure MrIndex where
  minecraft : Option String := none
  forge : Option String := none
  neoforge : Option String := none
deriving DecidableEq, Repr

/-- A server root: its files plus the parse oracles for the two JSON
manifests the synthesizer reads.  `indexJson = none` covers both an absent
and an unparseable `modrinth.index.json` (existence is checked against
`files` first, parse failure then maps to `none`); `cfManifestMc` is
`manifest["minecraft"]["version"]` of the first `manifest.json` when that
parse yields a string. -/
structure SRoot where
  files : List FsFile := []
  indexJson : Option MrIndex := none
  cfManifestMc : Option String := none
deriving DecidableEq, Repr

def fileNameOf (f : FsFile) : String := f.path.getLastD ""

def existsFile (r : SRoot) (p : List String) : Bool :=
  r.files.any (fun f => f.path == p)

def firstFileNamed (r : SRoot) (name : String) : Option FsFile :=
  r.files.find? (fun f => fileNameOf f == name)

/-- `rel.parent.as_posix()` turned into the `cd {dir} && ` fragment the
synthesizer prepends, empty when the parent is the root ("."). -/
def cdPrefixFor (p : List String) : String :=
  match p.dropLast with
  | [] => ""
  | ps => "cd " ++ joinSep "/" ps ++ " && "

/-! ## Install-bootstrap strategies (utils.py:7-79) -/

/-- `_install_via_install_sh`: run `Install.sh` when present in `run_dir`. -/
def installViaInstallSh (r : SRoot) (runDir : List String) : Option String :=
  if existsFile r (runDir ++ ["Install.sh"]) then
    let rel := joinSep "/" (runDir ++ ["Install.sh"])
    some ("chmod +x " ++ rel ++ " && ./" ++ rel ++ " && ")
  else none

/-- fnmatch for the glob `neoforge-*-installer.jar` (the `*` may be empty;
prefix and suffix must not overlap). -/
def matchesNeoforgeInstallerGlob (name : String) : Bool :=
  let cs := name.data
  "neoforge-".data.isPrefixOf cs && "-installer.jar".data.isSuffixOf (cs.drop 9)

/-- fnmatch for the glob `forge-*-installer.jar`. -/
def matchesForgeInstallerGlob (name : String) : Bool :=
  let cs := name.data
  "forge-".data.isPrefixOf cs && "-installer.jar".data.isSuffixOf (cs.drop 6)

/-- `_install_via_neoforge_installer`: first neoforge installer jar outside
libraries/mods whose target server jar and unix_args.txt are both absent. -/
def installViaNeoforgeInstaller (r : SRoot) : Option String :=
  r.files.findSome? (fun f =>
    let name := fileNameOf f
    if matchesNeoforgeInstallerGlob name
        && !(f.path.contains "libraries") && !(f.path.contains "mods") then
      if strContains name "neoforge-" && strContains name "-installer" then
        let version := String.mk
          (dropFromLastOccur "-installer".data (afterFirstOccur "neoforge-".data name.data))
        let jarPath := f.path.dropLast ++ ["neoforge-" ++ version ++ ".jar"]
        let unixArgs := ["libraries", "net", "neoforged", "neoforge", version, "unix_args.txt"]
        if !(existsFile r jarPath) && !(existsFile r unixArgs) then
          some (cdPrefixFor f.path ++ "java -jar " ++ name ++ " --installServer && ")
        else none
      else none
    else none)

/-- `_install_via_forge_installer`: analogous for Forge, also checking the
universal jar. -/
def installViaForgeInstaller (r : SRoot) : Option String :=
  r.files.findSome? (fun f =>
    let name := fileNameOf f
    if matchesForgeInstallerGlob name
        && !(f.path.contains "libraries") && !(f.path.contains "mods") then
      if strContains name "forge-" && strContains name "-installer" then
        let version := String.mk
          (dropFromLastOccur "-installer".data (afterFirstOccur "forge-".data name.data))
        let jarPath := f.path.dropLast ++ ["forge-" ++ version ++ ".jar"]
        let universalPath := f.path.dropLast ++ ["forge-" ++ version ++ "-universal.jar"]
        let unixArgs := ["libraries", "net", "minecraftforge", "forge", version, "unix_args.txt"]
        if !(existsFile r jarPath) && !(existsFile r universalPath)
            && !(existsFile r unixArgs) then
          some (cdPrefixFor f.path ++ "java -jar " ++ name ++ " --installServer && ")
        else none
      else none
    else none)

/-- `get_install_command`: first non-None strategy wins (Install.sh, then
NeoForge, then Forge). -/
def getInstallCommand (r : SRoot) (runDir : List String) : Option String :=
  match installViaInstallSh r runDir with
  | some s => some s
  | none =>
    match installViaNeoforgeInstaller r with
    | some s => some s
    | none => installViaForgeInstaller r

/-- `_find_unix_args_path`: relative posix path of the first
`unix_args.txt` anywhere under the root. -/
def findUnixArgsPath (r : SRoot) : Option String :=
  (firstFileNamed r "unix_args.txt").map (fun f => joinSep "/" f.path)

def hasUnixArgs (r : SRoot) : Bool :=
  (firstFileNamed r "unix_args.txt").isSome

/-! ## Script and jar selection (utils.py:145-250) -/

def preferredScriptNames : List String :=
  ["start.sh", "run.sh", "serverstart.sh", "startserver.sh",
   "launch.sh", "start.bat", "run.bat", "startserver.bat"]

def scriptSortKey (f : FsFile) : Nat × Nat × Nat :=
  (if toLowerStr (suffixOf (fileNameOf f)) == ".sh" then 0 else 1,
   if preferredScriptNames.contains (toLowerStr (fileNameOf f)) then 0 else 1,
   f.path.length)

/-- Strict lexicographic comparison of sort keys. -/
def keyLt (a b : Nat × Nat × Nat) : Bool :=
  a.1 < b.1
    || (a.1 == b.1
        && (a.2.1 < b.2.1 || (a.2.1 == b.2.1 && a.2.2 < b.2.2)))

/-- Insert `x` before the first element it is strictly smaller than.  Equal
keys keep their original order, so folding this over the list from the right
is a stable sort; Python's `sorted` is also stable, and any two stable sorts
of the same list under the same key agree, so this computes exactly the
source's `sorted(..., key=...)`. -/
def insertByLt (lt : α → α → Bool) (x : α) : List α → List α
  | [] => [x]
  | y :: ys => if lt y x then y :: insertByLt lt x ys else x :: y :: ys

def stableSortBy (lt : α → α → Bool) : List α → List α
  | [] => []
  | x :: xs => insertByLt lt x (stableSortBy lt xs)

def isScriptFile (f : FsFile) : Bool :=
  [".sh", ".bat", ".cmd"].contains (toLowerStr (suffixOf (fileNameOf f)))

/-- The scripts surviving the ServerPackCreator-signature filter
(`pick_script`, utils.py:164-179; a read failure keeps the script, and reads
are modelled as always succeeding). -/
def validScripts (r : SRoot) : List FsFile :=
  (r.files.filter isScriptFile).filter
    (fun f => !(strContains f.text "ServerPackCreator"))

/-- `pick_script`: best surviving script under the (is-.sh, preferred-name,
path-depth) key. -/
def pickScript (r : SRoot) : Option FsFile :=
  (stableSortBy (fun a b => keyLt (scriptSortKey a) (scriptSortKey b))
    (validScripts r)).head?

def isJarFile (f : FsFile) : Bool := ".jar".data.isSuffixOf (fileNameOf f).data

def jarSortKey (f : FsFile) : Nat × Nat × Nat :=
  (if lowerContains (fileNameOf f) "server" then 0 else 1,
   if lowerContains (fileNameOf f) "forge" || lowerContains (fileNameOf f) "fabric" then 0
   else 1,
   f.path.length)

/-- The JVM heap fragment `-Xms{ram}M -Xmx{ram}M`. -/
def jvmOpts (ramMb : Nat) : String :=
  "-Xms" ++ Nat.repr ramMb ++ "M -Xmx" ++ Nat.repr ramMb ++ "M"

/-- Steps 2-4 of `detect_generic_start_command` (utils.py:203-250): fabric
installer, fabric launch jar, then the scored generic jar fallback. -/
def detectNonScript (r : SRoot) (ramMb : Nat) : List String × Option String :=
  match r.files.find? (fun f => isJarFile f && lowerContains (fileNameOf f) "fabric-installer") with
  | some f =>
    let cdPre := cdPrefixFor f.path
    let installCmd := cdPre ++ "java -jar " ++ fileNameOf f ++ " server -downloadMinecraft"
    let runCmd := cdPre ++ "java " ++ jvmOpts ramMb ++ " -jar fabric-server-launch.jar nogui"
    (["/bin/bash", "-c", installCmd ++ " && " ++ runCmd], some (joinSep "/" f.path))
  | none =>
    match firstFileNamed r "fabric-server-launch.jar" with
    | some f =>
      let cdPre := cdPrefixFor f.path
      (["/bin/bash", "-c",
         cdPre ++ "java " ++ jvmOpts ramMb ++ " -jar " ++ fileNameOf f ++ " nogui"],
       some (joinSep "/" f.path))
    | none =>
      let candidates := r.files.filter (fun f => isJarFile f
        && !(f.path.any (fun part => part == "libraries" || part == "mods" || part == "plugins"))
        && !(lowerContains (fileNameOf f) "installer"))
      match (stableSortBy (fun a b => keyLt (jarSortKey a) (jarSortKey b)) candidates).head? with
      | some jar =>
        let cdPre := cdPrefixFor jar.path
        let runCmd := cdPre ++ "java " ++ jvmOpts ramMb ++ " -jar " ++ fileNameOf jar ++ " nogui"
        let cmdStr :=
          match getInstallCommand r jar.path.dropLast with
          | some pre => pre ++ runCmd
          | none => runCmd
        (["/bin/bash", "-c", cmdStr], some (joinSep "/" jar.path))
      | none => ([], none)

/-- `detect_generic_start_command` (utils.py:145-250).  The `_log_line`
debug calls only write to the log buffer and are omitted. -/
def detectGenericStartCommand (r : SRoot) (ramMb : Nat) : List String × Option String :=
  match pickScript r with
  | some s =>
    if toLowerStr (suffixOf (fileNameOf s)) == ".sh" then
      let rel := joinSep "/" s.path
      let cmdStr :=
        match getInstallCommand r s.path.dropLast with
        | some pre => "cd /data && chmod +x " ++ rel ++ " && " ++ pre ++ "./" ++ rel
        | none => "cd /data && chmod +x " ++ rel ++ " && ./" ++ rel
      (["/bin/bash", "-c", cmdStr], some rel)
    else detectNonScript r ramMb
  | none => detectNonScript r ramMb

/-! ## Minecraft-version heuristics (utils.py:81-143, runtime.py:93-150) -/

def isWordChar (c : Char) : Bool := c.isAlphanum || c == '_'

def boundaryOk (cs : List Char) : Bool :=
  match cs with
  | [] => true
  | c :: _ => !isWordChar c

/-- One attempted match of `\b1\.\d+(?:\.\d+)?\b` at the current position
(the leading `\b` is checked by the scanner).  The optional `.digits` group
is greedy; when its word-boundary fails the regex backtracks to the short
match, whose boundary then holds because the next character is a dot. -/
def tryMatchVersion (cs : List Char) : Option (List Char × List Char) :=
  match cs with
  | '1' :: '.' :: rest =>
    let d1 := rest.takeWhile Char.isDigit
    if d1.isEmpty then none
    else
      let r1 := rest.drop d1.length
      match r1 with
      | '.' :: rest2 =>
        let d2 := rest2.takeWhile Char.isDigit
        let r2 := rest2.drop d2.length
        if !d2.isEmpty && boundaryOk r2 then
          some ('1' :: '.' :: (d1 ++ '.' :: d2), r2)
        else some ('1' :: '.' :: d1, r1)
      | _ => if boundaryOk r1 then some ('1' :: '.' :: d1, r1) else none
  | _ => none

/-- Left-to-right non-overlapping scan of `re.findall`; `prevWord` tracks
whether the previous character was a word character (for `\b`).  The fuel
starts at the text length and bounds the number of steps; each step consumes
at least one character, so it never runs out before the text does. -/
def scanVersionsAux : Nat → Bool → List Char → List (List Char)
  | 0, _, _ => []
  | _, _, [] => []
  | Nat.succ fuel, prevWord, c :: rest =>
    if !prevWord then
      match tryMatchVersion (c :: rest) with
      | some (m, rem) => m :: scanVersionsAux fuel true rem
      | none => scanVersionsAux fuel (isWordChar c) rest
    else scanVersionsAux fuel (isWordChar c) rest

/-- `extract_minecraft_versions`: all `\b1\.\d+(?:\.\d+)?\b` matches. -/
def extractMinecraftVersions (text : String) : List String :=
  (scanVersionsAux text.data.length false text.data).map String.mk

/-- The comparison key of `pick_best_version`: numeric dot-components. -/
def verKey (v : String) : List Nat :=
  ((splitOnChar '.' v.data).filter isDigits).map natOfDigits

/-- Python tuple `<` on the numeric keys (lexicographic, shorter prefix
first). -/
def listLtNat : List Nat → List Nat → Bool
  | [], [] => false
  | [], _ :: _ => true
  | _ :: _, [] => false
  | a :: as, b :: bs => if a < b then true else if b < a then false else listLtNat as bs

/-- `pick_best_version`: `max(..., key=...)`, which keeps the first of any
tied maxima, hence replace only on strictly greater. -/
def pickBestVersion (versions : List String) : Option String :=
  match versions.filter (fun v => !(v == "")) with
  | [] => none
  | c :: rest =>
    some (rest.foldl (fun best v => if listLtNat (verKey best) (verKey v) then v else best) c)

/-- `detect_minecraft_version_from_root` (utils.py:93-143): CurseForge
manifest, then Modrinth index, then versions scraped from server/forge jar
names; otherwise None.  (`has_unix_args` is computed in the source but never
used there.) -/
def detectMinecraftVersionFromRoot (r : SRoot) (source : Option String) : Option String :=
  let sourceKey := toLowerStr (stripStr (source.getD ""))
  let cfResult : Option String :=
    if sourceKey == "curseforge" then
      match firstFileNamed r "manifest.json" with
      | some _ =>
        (match r.cfManifestMc with
         | some v => if !(stripStr v == "") then some (stripStr v) else none
         | none => none)
      | none => none
    else none
  match cfResult with
  | some v => some v
  | none =>
    let mrResult : Option String :=
      if existsFile r ["modrinth.index.json"] then
        match r.indexJson with
        | some idx =>
          (match idx.minecraft with
           | some v => if !(stripStr v == "") then some (stripStr v) else none
           | none => none)
        | none => none
      else none
    match mrResult with
    | some v => some v
    | none =>
      let serverJarNames := (r.files.filter (fun f => isJarFile f
          && (lowerContains (fileNameOf f) "server"
                || lowerContains (fileNameOf f) "forge"))).map fileNameOf
      pickBestVersion (serverJarNames.bind extractMinecraftVersions)

/-- `_parse_minecraft_version` (runtime.py:93-97). -/
def parseMinecraftVersion (value : Option String) : Option String :=
  match value with
  | none => none
  | some v => if v == "" then none else pickBestVersion (extractMinecraftVersions v)

/-- `_java_major_for_mc` (runtime.py:100-114). -/
def javaMajorForMc (version : Option String) : Nat :=
  match version with
  | none => 17
  | some v =>
    if v == "" then 17
    else
      match (splitOnChar '.' v.data).filter isDigits with
      | p0 :: p1 :: _ =>
        if p0 == ['1'] then
          let minor := natOfDigits p1
          if minor ≥ 21 then 21
          else if minor ≥ 18 then 17
          else if minor == 17 then 17
          else 8
        else 17
      | _ => 17

/-- Python truthiness for optional strings: None and "" are both falsy. -/
def optTruthy (o : Option String) : Option String :=
  match o with
  | some v => if v == "" then none else some v
  | none => none

/-- The minecraft-version resolution chain of `_select_java_image`
(runtime.py:120-124): the stored value, else directory detection, else the
version parsed out of the pack's version string. -/
def resolveMcVersion (inst : Instance) (r : SRoot) (source : Option String) : Option String :=
  match optTruthy inst.minecraftVersion with
  | some v => some v
  | none =>
    match detectMinecraftVersionFromRoot r source with
    | some v => some v
    | none => parseMinecraftVersion inst.versionNumber

/-- `_select_java_image` (runtime.py:117-150).  The registry write caching a
newly detected minecraft_version (runtime.py:125-127) does not affect the
returned image and is omitted, as are the `_log_line` calls.  When no
version is detected, both source branches (with and without a unix_args.txt
hit, runtime.py:139-146) select Java 21. -/
def selectJavaImage (inst : Instance) (r : SRoot) (source : Option String) : String :=
  let mc := resolveMcVersion inst r source
  let major : Nat :=
    match mc with
    | some v =>
      if javaMajorForMc (some v) == 8 then
        if hasUnixArgs r then 21 else 8
      else javaMajorForMc (some v)
    | none => 21
  "eclipse-temurin:" ++ Nat.repr major ++ "-jre"

/-! ## ModrinthProvider.generate_start_command (modrinth.py:63-205) -/

/-- `_maybe_fetch_forge_or_neoforge_installer` (modrinth.py:159-205): when
the Modrinth index names a NeoForge (first) or Forge (second, also needing a
minecraft version) dependency, use the installer bundled at the root or
download it; `netOk` is the download-success oracle, and a successful
download makes the installer exist at the root.  Returns the installer's
root-relative path and the loader tag. -/
def maybeFetchInstaller (r : SRoot) (netOk : Bool) :
    Option (List String) × Option String :=
  if !(existsFile r ["modrinth.index.json"]) then (none, none)
  else
    match r.indexJson with
    | none => (none, none)
    | some idx =>
      match optTruthy idx.neoforge with
      | some nfv =>
        let name := "neoforge-" ++ nfv ++ "-installer.jar"
        if existsFile r [name] then (some [name], some "neoforge")
        else if netOk then (some [name], some "neoforge")
        else (none, some "neoforge")
      | none =>
        match optTruthy idx.minecraft, optTruthy idx.forge with
        | some mcv, some fv =>
          let name := "forge-" ++ mcv ++ "-" ++ fv ++ "-installer.jar"
          if existsFile r [name] then (some [name], some "forge")
          else if netOk then (some [name], some "forge")
          else (none, some "forge")
        | _, _ => (none, none)

/-- `ModrinthProvider.generate_start_command` (modrinth.py:63-141): when the
index mandates a loader, chain `--installServer` with the post-install
invocation (argument-file layout preferred); otherwise fall back to the
generic detection, raising when that finds nothing. -/
def generateStartCommand (r : SRoot) (ramMb : Nat) (netOk : Bool) :
    Except String (List String × Option String) :=
  match (maybeFetchInstaller r netOk).fst with
  | some instPath =>
    let name := instPath.getLastD ""
    let cdPre := cdPrefixFor instPath
    let installCmd := cdPre ++ "java -jar " ++ name ++ " --installServer"
    let jvm := jvmOpts ramMb
    let defaultRun := cdPre ++ "java " ++ jvm ++ " -jar " ++ name ++ " nogui"
    let seedArgs := "if [ ! -f user_jvm_args.txt ]; then : > user_jvm_args.txt; fi; "
    let runCmd :=
      if strContains name "neoforge-" && strContains name "-installer" then
        match findUnixArgsPath r with
        | some uap =>
          cdPre ++ "if [ -f " ++ uap ++ " ]; then " ++ seedArgs
            ++ "java @user_jvm_args.txt @" ++ uap ++ " nogui; "
            ++ "else java " ++ jvm ++ " -jar " ++ name ++ " nogui; fi"
        | none =>
          let nfv := String.mk
            (dropFromLastOccur "-installer".data (afterFirstOccur "neoforge-".data name.data))
          let nfArgs := "libraries/net/neoforged/neoforge/" ++ nfv ++ "/unix_args.txt"
          let nfJar := "neoforge-" ++ nfv ++ ".jar"
          cdPre ++ "if [ -f " ++ nfArgs ++ " ]; then " ++ seedArgs
            ++ "java @user_jvm_args.txt @" ++ nfArgs ++ " nogui; "
            ++ "elif [ -f " ++ nfJar ++ " ]; then "
            ++ "java " ++ jvm ++ " -jar " ++ nfJar ++ " nogui; "
            ++ "else java " ++ jvm ++ " -jar " ++ name ++ " nogui; fi"
      else if strContains name "forge-" && strContains name "-installer" then
        match findUnixArgsPath r with
        | some uap =>
          cdPre ++ "if [ -f " ++ uap ++ " ]; then " ++ seedArgs
            ++ "java @user_jvm_args.txt @" ++ uap ++ " nogui; "
            ++ "else java " ++ jvm ++ " -jar " ++ name ++ " nogui; fi"
        | none =>
          let fv := String.mk
            (dropFromLastOccur "-installer".data (afterFirstOccur "forge-".data name.data))
          let fArgs := "libraries/net/minecraftforge/forge/" ++ fv ++ "/unix_args.txt"
          let fJar := "forge-" ++ fv ++ ".jar"
          let fUniversal := "forge-" ++ fv ++ "-universal.jar"
          cdPre ++ "if [ -f " ++ fArgs ++ " ]; then " ++ seedArgs
            ++ "java @user_jvm_args.txt @" ++ fArgs ++ " nogui; "
            ++ "elif [ -f " ++ fJar ++ " ]; then "
            ++ "java " ++ jvm ++ " -jar " ++ fJar ++ " nogui; "
            ++ "elif [ -f " ++ fUniversal ++ " ]; then "
            ++ "java " ++ jvm ++ " -jar " ++ fUniversal ++ " nogui; "
            ++ "else java " ++ jvm ++ " -jar " ++ name ++ " nogui; fi"
      else defaultRun
    Except.ok (["/bin/bash", "-c", installCmd ++ " && " ++ runCmd],
      some (joinSep "/" instPath))
  | none =>
    let p := detectGenericStartCommand r ramMb
    if !p.fst.isEmpty then Except.ok p
    else Except.error "Could not detect start command in server pack"

/-- The entry-path component of a synthesizer result. -/
def entryOf : Except String (List String × Option String) → Option String
  | Except.ok (_, some e) => some e
  | _ => none

/-! ## Lemmas about the stable sort and the selection keys -/

theorem str_append_empty (s : String) : s ++ "" = s := by
  cases s with
  | mk data =>
    show String.mk (data ++ []) = String.mk data
    rw [List.append_nil]

theorem str_append_assoc (a b c : String) : a ++ b ++ c = a ++ (b ++ c) := by
  cases a with
  | mk da =>
    cases b with
    | mk db =>
      cases c with
      | mk dc =>
        show String.mk (da ++ db ++ dc) = String.mk (da ++ (db ++ dc))
        rw [List.append_assoc]

theorem mem_insertByLt {lt : α → α → Bool} {x y : α} {l : List α} :
    y ∈ insertByLt lt x l ↔ y = x ∨ y ∈ l := by
  induction l with
  | nil => simp [insertByLt]
  | cons a t ih =>
    cases h : lt a x with
    | true =>
      simp only [insertByLt, h, if_true, List.mem_cons, ih]
      try tauto
    | false =>
      simp only [insertByLt, h, Bool.false_eq_true, if_false, List.mem_cons]
      try tauto

theorem mem_stableSortBy {lt : α → α → Bool} {l : List α} {y : α} :
    y ∈ stableSortBy lt l ↔ y ∈ l := by
  induction l with
  | nil => simp [stableSortBy]
  | cons a t ih =>
    simp only [stableSortBy, mem_insertByLt, ih, List.mem_cons]

theorem keyLt_true_fst_le {a b : Nat × Nat × Nat} (h : keyLt a b = true) :
    a.1 ≤ b.1 := by
  unfold keyLt at h
  simp only [Bool.or_eq_true, Bool.and_eq_true, decide_eq_true_eq, beq_iff_eq] at h
  omega

theorem keyLt_false_fst_le {a b : Nat × Nat × Nat} (h : keyLt a b = false) :
    b.1 ≤ a.1 := by
  unfold keyLt at h
  simp only [Bool.or_eq_false_iff, Bool.and_eq_false_iff] at h
  rcases h with ⟨h1, _⟩
  simp only [decide_eq_false_iff_not, Nat.not_lt] at h1
  exact h1

theorem insertByLt_key_head (key : α → Nat × Nat × Nat) (x : α) (l : List α) :
    ∃ h rest, insertByLt (fun a b => keyLt (key a) (key b)) x l = h :: rest
      ∧ (key h).1 ≤ (key x).1
      ∧ ∀ z, l.head? = some z → (key h).1 ≤ (key z).1 := by
  cases l with
  | nil =>
    exact ⟨x, [], rfl, Nat.le_refl _, fun z hz => by cases hz⟩
  | cons y ys =>
    cases hlt : keyLt (key y) (key x) with
    | true =>
      refine ⟨y, insertByLt (fun a b => keyLt (key a) (key b)) x ys, ?_,
        keyLt_true_fst_le hlt, ?_⟩
      · simp [insertByLt, hlt]
      · intro z hz
        cases hz
        exact Nat.le_refl _
    | false =>
      refine ⟨x, y :: ys, ?_, Nat.le_refl _, ?_⟩
      · simp [insertByLt, hlt]
      · intro z hz
        cases hz
        exact keyLt_false_fst_le hlt

theorem stableSortBy_head_key_min (key : α → Nat × Nat × Nat) (l : List α) (y : α)
    (hy : y ∈ l) :
    ∃ h rest, stableSortBy (fun a b => keyLt (key a) (key b)) l = h :: rest
      ∧ (key h).1 ≤ (key y).1 ∧ h ∈ l := by
  induction l with
  | nil => cases hy
  | cons a t ih =>
    obtain ⟨h, rest, heq, hxle, hheadle⟩ :=
      insertByLt_key_head key a (stableSortBy (fun a b => keyLt (key a) (key b)) t)
    have hsort : stableSortBy (fun a b => keyLt (key a) (key b)) (a :: t) = h :: rest := heq
    have hmemins : h ∈ insertByLt (fun a b => keyLt (key a) (key b)) a
        (stableSortBy (fun a b => keyLt (key a) (key b)) t) := by
      rw [heq]; exact List.mem_cons_self _ _
    have hmem : h ∈ a :: t := by
      rcases mem_insertByLt.mp hmemins with h1 | h2
      · exact h1 ▸ List.mem_cons_self _ _
      · exact List.mem_cons_of_mem _ (mem_stableSortBy.mp h2)
    rcases List.mem_cons.mp hy with rfl | hyt
    · exact ⟨h, rest, hsort, hxle, hmem⟩
    · obtain ⟨h', rest', heq', hle', _⟩ := ih hyt
      have hh : (key h).1 ≤ (key h').1 := hheadle h' (by rw [heq']; rfl)
      exact ⟨h, rest, hsort, Nat.le_trans hh hle', hmem⟩

/-! ## Claim theorems for the launch synthesizer -/

/-- C6 (amended): when the server root contains a `.sh` script without the
ServerPackCreator template signature, the generic detection selects such a
script (never a jar): the command makes the selected script executable and
runs it (optionally after a one-time install bootstrap), and the entry path
is the script's root-relative path; the Modrinth synthesizer returns the
same result whenever its index does not mandate a Forge/NeoForge installer. -/
theorem c6_sh_script_selected
    (r : SRoot) (ramMb : Nat) (netOk : Bool) (f : FsFile)
    (hf : f ∈ r.files)
    (hsh : toLowerStr (suffixOf (fileNameOf f)) = ".sh")
    (hspc : strContains f.text "ServerPackCreator" = false) :
    ∃ s : FsFile, s ∈ r.files
      ∧ toLowerStr (suffixOf (fileNameOf s)) = ".sh"
      ∧ strContains s.text "ServerPackCreator" = false
      ∧ detectGenericStartCommand r ramMb
        = (["/bin/bash", "-c",
            "cd /data && chmod +x " ++ joinSep "/" s.path ++ " && "
              ++ ((getInstallCommand r s.path.dropLast).getD "") ++ "./" ++ joinSep "/" s.path],
           some (joinSep "/" s.path))
      ∧ ((maybeFetchInstaller r netOk).fst = none →
          generateStartCommand r ramMb netOk
            = Except.ok (detectGenericStartCommand r ramMb)) := by
  have hfs : isScriptFile f = true := by
    unfold isScriptFile
    rw [hsh]
    decide
  have hfv : f ∈ validScripts r := by
    unfold validScripts
    exact List.mem_filter.mpr ⟨List.mem_filter.mpr ⟨hf, hfs⟩, by simp [hspc]⟩
  have hkeyf : (scriptSortKey f).1 = 0 := by
    unfold scriptSortKey
    rw [hsh]
    simp
  obtain ⟨h, rest, hsorteq, hle, hmem⟩ :=
    stableSortBy_head_key_min scriptSortKey (validScripts r) f hfv
  have hk0 : (scriptSortKey h).1 = 0 := Nat.le_zero.mp (hkeyf ▸ hle)
  have hsh2 : (toLowerStr (suffixOf (fileNameOf h)) == ".sh") = true := by
    revert hk0
    unfold scriptSortKey
    cases hcond : (toLowerStr (suffixOf (fileNameOf h)) == ".sh") <;> simp [hcond]
  have hpick : pickScript r = some h := by
    unfold pickScript
    rw [hsorteq]
    rfl
  have hprops : h ∈ r.files ∧ strContains h.text "ServerPackCreator" = false := by
    unfold validScripts at hmem
    have h1 := List.mem_filter.mp hmem
    have h2 := List.mem_filter.mp h1.1
    exact ⟨h2.1, by simpa using h1.2⟩
  have hdet : detectGenericStartCommand r ramMb
      = (["/bin/bash", "-c",
          "cd /data && chmod +x " ++ joinSep "/" h.path ++ " && "
            ++ ((getInstallCommand r h.path.dropLast).getD "") ++ "./" ++ joinSep "/" h.path],
         some (joinSep "/" h.path)) := by
    unfold detectGenericStartCommand
    rw [hpick]
    simp only [hsh2, if_true]
    cases hic : getInstallCommand r h.path.dropLast with
    | some pre => simp [hic]
    | none =>
      have hseg : (" && " : String) ++ ("./" ++ joinSep "/" h.path)
          = " && ./" ++ joinSep "/" h.path := by
        rw [← str_append_assoc]
        exact congrArg (fun t => t ++ joinSep "/" h.path) (by decide)
      simp only [hic, Option.getD_none, str_append_empty, str_append_assoc, hseg]
  refine ⟨h, hprops.1, by simpa using hsh2, hprops.2, hdet, fun hmf => ?_⟩
  unfold generateStartCommand
  rw [hmf, hdet]
  rfl

/-- C7: when no platform version is determinable for a server root, the
selected runtime image is the modern Java 21 one (never the legacy
default) — in particular in the presence of a modern `unix_args.txt`
argument-file layout — and a detected legacy version mapping to Java 8 is
overridden to Java 21 whenever a `unix_args.txt` exists under the root. -/
theorem c7_unix_args_modern_toolchain :
    (∀ (inst : Instance) (r : SRoot) (source : Option String),
        resolveMcVersion inst r source = none → hasUnixArgs r = true →
        selectJavaImage inst r source = "eclipse-temurin:21-jre")
      ∧ (∀ (inst : Instance) (r : SRoot) (source : Option String) (v : String),
          resolveMcVersion inst r source = some v → javaMajorForMc (some v) = 8 →
          hasUnixArgs r = true →
          selectJavaImage inst r source = "eclipse-temurin:21-jre") := by
  constructor
  · intro inst r source hmc _
    unfold selectJavaImage
    rw [hmc]
    show ("eclipse-temurin:" ++ Nat.repr 21 ++ "-jre" : String) = "eclipse-temurin:21-jre"
    decide
  · intro inst r source v hmc h8 hu
    unfold selectJavaImage
    rw [hmc]
    simp only [h8, hu]
    show ("eclipse-temurin:" ++ Nat.repr 21 ++ "-jre" : String) = "eclipse-temurin:21-jre"
    decide

/-! ## Concrete roots for the synthesizer claims -/

def rootW6 : SRoot :=
  { files := [⟨["server.jar"], ""⟩, ⟨["start.sh"], "java -jar server.jar"⟩] }

/-- Witness for C6 as amended, which is also the spec's Scenario B: a root
holding both a jar and a non-generated `start.sh`; the script wins. -/
theorem c6_witness :
    ((⟨["start.sh"], "java -jar server.jar"⟩ : FsFile) ∈ rootW6.files
        ∧ toLowerStr (suffixOf (fileNameOf ⟨["start.sh"], "java -jar server.jar"⟩)) = ".sh"
        ∧ strContains "java -jar server.jar" "ServerPackCreator" = false)
      ∧ (∃ s : FsFile, s ∈ rootW6.files
          ∧ toLowerStr (suffixOf (fileNameOf s)) = ".sh"
          ∧ strContains s.text "ServerPackCreator" = false
          ∧ detectGenericStartCommand rootW6 4096
            = (["/bin/bash", "-c",
                "cd /data && chmod +x " ++ joinSep "/" s.path ++ " && "
                  ++ ((getInstallCommand rootW6 s.path.dropLast).getD "")
                  ++ "./" ++ joinSep "/" s.path],
               some (joinSep "/" s.path))
          ∧ ((maybeFetchInstaller rootW6 false).fst = none →
              generateStartCommand rootW6 4096 false
                = Except.ok (detectGenericStartCommand rootW6 4096))) :=
  ⟨⟨by decide, by decide, by decide⟩,
    c6_sh_script_selected rootW6 4096 false ⟨["start.sh"], "java -jar server.jar"⟩
      (by decide) (by decide) (by decide)⟩

def rootC6 : SRoot :=
  { files := [⟨["modrinth.index.json"], ""⟩,
              ⟨["neoforge-21.1.168-installer.jar"], ""⟩,
              ⟨["start.sh"], "java -jar server.jar"⟩],
    indexJson := some { neoforge := some "21.1.168" } }

/-- Counterexample for C6 as stated: this root contains a valid `start.sh`
(no ServerPackCreator signature), yet the Modrinth synthesizer prefers the
loader installer its index mandates over the script — the returned entry is
the bundled installer jar, not the script's path. -/
theorem c6_counterexample :
    ((⟨["start.sh"], "java -jar server.jar"⟩ : FsFile) ∈ rootC6.files
        ∧ toLowerStr (suffixOf (fileNameOf ⟨["start.sh"], "java -jar server.jar"⟩)) = ".sh"
        ∧ strContains "java -jar server.jar" "ServerPackCreator" = false)
      ∧ entryOf (generateStartCommand rootC6 4096 false)
          = some "neoforge-21.1.168-installer.jar"
      ∧ entryOf (generateStartCommand rootC6 4096 false) ≠ some "start.sh" := by
  exact ⟨⟨by decide, by decide, by decide⟩, by decide, by decide⟩

def rootW7 : SRoot := { files := [⟨["libraries", "unix_args.txt"], ""⟩] }

def instW7a : Instance := { id := "srv-g" }

def instW7b : Instance := { id := "srv-h", minecraftVersion := some "1.12.2" }

/-- Witness for C7: an undetectable version with a unix_args.txt layout, and
a legacy 1.12.2 version with the same layout, both select Java 21. -/
theorem c7_witness :
    (resolveMcVersion instW7a rootW7 none = none
        ∧ hasUnixArgs rootW7 = true
        ∧ selectJavaImage instW7a rootW7 none = "eclipse-temurin:21-jre")
      ∧ (resolveMcVersion instW7b rootW7 none = some "1.12.2"
          ∧ javaMajorForMc (some "1.12.2") = 8
          ∧ hasUnixArgs rootW7 = true
          ∧ selectJavaImage instW7b rootW7 none = "eclipse-temurin:21-jre") :=
  ⟨⟨by decide, by decide,
      c7_unix_args_modern_toolchain.1 instW7a rootW7 none (by decide) (by decide)⟩,
    ⟨by decide, by decide, by decide,
      c7_unix_args_modern_toolchain.2 instW7b rootW7 none "1.12.2" (by decide) (by decide)
        (by decide)⟩⟩

/-- Counterexample for C9 as stated: the claim says the status and tail
operations return a not-found ERROR for an unknown id, but both return
successful defaults (an OFFLINE payload and an empty list) rather than any
error. -/
theorem c9_counterexample :
    (instanceStatus wrldC9 "srv-missing").fst = Except.ok STATUS_OFFLINE
      ∧ (tailLogs wrldC9 "srv-missing" 5).fst = Except.ok []
      ∧ (instanceStatus wrldC9 "srv-missing").fst ≠ Except.error OrchError.notFound
      ∧ (tailLogs wrldC9 "srv-missing" 5).fst ≠ Except.error OrchError.notFound := by
  refine ⟨rfl, rfl, by decide, by decide⟩

/-! ## Log-aggregation lemmas and claim C8 -/

theorem lookup_setAssoc (l : List (String × β)) (k : String) (v : β) :
    lookupAssoc (setAssoc l k v) k = some v := by
  induction l with
  | nil => simp [setAssoc, lookupAssoc]
  | cons p t ih =>
    obtain ⟨a, b⟩ := p
    by_cases h : a == k
    · simp [setAssoc, lookupAssoc, h]
    · simp [setAssoc, lookupAssoc, h, ih]

theorem dedupConsecAux_chain (last? : Option String) (ls : List String) :
    List.Chain' (fun a b => a ≠ b) (dedupConsecAux last? ls)
      ∧ ∀ h, (dedupConsecAux last? ls).head? = some h → last? ≠ some h := by
  induction ls generalizing last? with
  | nil => exact ⟨List.chain'_nil, fun h hh => by cases hh⟩
  | cons l rest ih =>
    by_cases he : last? = some l
    · simp only [dedupConsecAux, if_pos he]
      exact ih last?
    · simp only [dedupConsecAux, if_neg he]
      obtain ⟨hc, hh⟩ := ih (some l)
      constructor
      · rw [List.chain'_cons']
        refine ⟨fun y hy heq => ?_, hc⟩
        exact hh y hy (by rw [heq])
      · intro h hh2
        injection hh2 with hh2
        exact hh2 ▸ he

/-- The consecutive-duplicate filter really leaves no two equal adjacent
lines. -/
theorem chain'_dedupConsec (ls : List String) :
    List.Chain' (fun a b => a ≠ b) (dedupConsec ls) :=
  (dedupConsecAux_chain none ls).1

theorem length_lastN (n : Nat) (l : List α) : (lastN n l).length ≤ n := by
  unfold lastN
  rw [List.length_drop]
  omega

theorem chain'_lastN {l : List String} (h : List.Chain' (fun a b => a ≠ b) l) (n : Nat) :
    List.Chain' (fun a b => a ≠ b) (lastN n l) :=
  h.drop _

set_option maxRecDepth 8000 in
/-- C8 (amended): for every call with `n ≥ 1` on an existing instance (and
the docker client obtainable), tail_logs returns exactly the last `n` lines
of the consecutive-duplicate-free merge of the retained buffer with the
fresh (perf-filtered) container output, that returned list never holds two
identical consecutive lines, and the buffer retained afterwards holds at
most 2000 lines.  (At `n = 0` the source's `deduped[-tail:]` returns the
whole merge instead of the last 0 lines — see the counterexample.) -/
theorem c8_tail_dedup_bounded
    (w : World) (id : String) (t : Nat) (inst : Instance)
    (hGet : getInstance w id = some inst)
    (hDock : w.dockerUnavailable = false)
    (ht : 1 ≤ t) :
    (tailLogs w id t).fst
        = Except.ok (lastN t (dedupConsec (bufferOf w id ++ tailSourceLines w inst t)))
      ∧ List.Chain' (fun a b => a ≠ b)
          (lastN t (dedupConsec (bufferOf w id ++ tailSourceLines w inst t)))
      ∧ (bufferOf (tailLogs w id t).snd id).length ≤ 2000 := by
  have ht0 : ¬(t = 0) := by omega
  unfold tailLogs
  rw [hGet]
  simp only [hDock, Bool.false_eq_true, if_false]
  refine ⟨by simp [ht0], chain'_lastN (chain'_dedupConsec _) _, ?_⟩
  show ((lookupAssoc (setAssoc w.logBuffers id
      (lastN 2000 (dedupConsec (bufferOf w id ++ tailSourceLines w inst t)))) id).getD []).length
    ≤ 2000
  rw [lookup_setAssoc]
  simp only [Option.getD_some]
  exact length_lastN _ _

def instW8 : Instance := { id := "srv-i", containerName := "mc-srv-i" }

def wrldW8 : World := { instances := [instW8], logBuffers := [("srv-i", ["line-a"])] }

set_option maxRecDepth 8000 in
/-- Counterexample for C8 as stated: the claim quantifies over every `n`,
but at `n = 0` the returned list is the whole deduplicated merge (Python
`deduped[-0:]`), not the last 0 lines (which would be empty). -/
theorem c8_counterexample :
    (tailLogs wrldW8 "srv-i" 0).fst = Except.ok ["line-a"]
      ∧ lastN 0 (dedupConsec (bufferOf wrldW8 "srv-i" ++ tailSourceLines wrldW8 instW8 0)) = []
      ∧ (["line-a"] : List String) ≠ [] :=
  ⟨by decide, by decide, by decide⟩

def instW8b : Instance := { id := "srv-j", containerName := "mc-srv-j" }

def contW8b : Container := { running := true, logs := ["dup", "dup", "x"] }

def wrldW8b : World :=
  { instances := [instW8b]
    logBuffers := [("srv-j", ["p1"])]
    containers := [("mc-srv-j", contW8b)] }

set_option maxRecDepth 8000 in
/-- Witness for C8 as amended: tailing 3 lines over a buffer plus container
output with an immediate repeat. -/
theorem c8_witness :
    getInstance wrldW8b "srv-j" = some instW8b
      ∧ wrldW8b.dockerUnavailable = false
      ∧ 1 ≤ 3
      ∧ ((tailLogs wrldW8b "srv-j" 3).fst
            = Except.ok (lastN 3 (dedupConsec
                (bufferOf wrldW8b "srv-j" ++ tailSourceLines wrldW8b instW8b 3)))
          ∧ List.Chain' (fun a b => a ≠ b)
              (lastN 3 (dedupConsec
                (bufferOf wrldW8b "srv-j" ++ tailSourceLines wrldW8b instW8b 3)))
          ∧ (bufferOf (tailLogs wrldW8b "srv-j" 3).snd "srv-j").length ≤ 2000) :=
  ⟨by decide, rfl, by decide,
    c8_tail_dedup_bounded wrldW8b "srv-j" 3 instW8b (by decide) rfl (by decide)⟩

/-! ## Provisioning concurrency (claim C10)

`create_instance` (runtime.py:266-287) spawns one daemon thread per
creation whose body is entirely wrapped in `with _hydrate_semaphore:`, and
`_hydrate_semaphore = threading.Semaphore(2)` (state.py:31).  The thread
pool is modelled as an interleaving transition system over the phases of
the spawned tasks: a task is `queued` until it acquires the semaphore,
`working` while it holds it (downloading/extracting), and `done` after
release.  `acquire` is enabled only while fewer than `hydrateLimit` holders
exist — exactly the counting-semaphore discipline. -/

inductive HydratePhase where
  | queued
  | working
  | done
deriving DecidableEq, Repr

/-- Number of tasks currently holding the semaphore (doing download/extract
work). -/
def workingCount (ts : List HydratePhase) : Nat :=
  ts.countP (fun p => p == HydratePhase.working)

/-- The semaphore's capacity: `threading.Semaphore(2)`. -/
def hydrateLimit : Nat := 2

theorem beq_queued_working : (HydratePhase.queued == HydratePhase.working) = false := rfl

theorem beq_done_working : (HydratePhase.done == HydratePhase.working) = false := rfl

theorem beq_working_working : (HydratePhase.working == HydratePhase.working) = true := rfl

inductive HydrateStep : List HydratePhase → List HydratePhase → Prop where
  | spawn (ts : List HydratePhase) : HydrateStep ts (ts ++ [HydratePhase.queued])
  | acquire (pre post : List HydratePhase)
      (h : workingCount (pre ++ HydratePhase.queued :: post) < hydrateLimit) :
      HydrateStep (pre ++ HydratePhase.queued :: post) (pre ++ HydratePhase.working :: post)
  | release (pre post : List HydratePhase) :
      HydrateStep (pre ++ HydratePhase.working :: post) (pre ++ HydratePhase.done :: post)

/-- States reachable from the initial state with no tasks. -/
def HydrateReachable (ts : List HydratePhase) : Prop :=
  Relation.ReflTransGen HydrateStep [] ts

/-- C10: in every reachable state at most `hydrateLimit = 2` provisioning
tasks are concurrently doing download/extract work, however many creations
were requested; and the working count only ever grows through an `acquire`
step taken strictly below the bound, i.e. every task acquires the counting
guard before doing any work. -/
theorem c10_hydrate_bounded :
    (∀ ts, HydrateReachable ts → workingCount ts ≤ hydrateLimit)
      ∧ (∀ s s', HydrateStep s s' →
          workingCount s' ≤ workingCount s + 1
            ∧ (workingCount s < workingCount s' → workingCount s < hydrateLimit)) := by
  constructor
  · intro ts h
    induction h with
    | refl => simp [workingCount]
    | tail _ hstep ih =>
      cases hstep with
      | spawn ts' =>
        simpa [workingCount, List.countP_append] using ih
      | acquire pre post hlt =>
        simp only [workingCount, List.countP_append, List.countP_cons,
          beq_queued_working, beq_working_working, Bool.false_eq_true, if_false, if_true]
          at hlt ih ⊢
        simp only [hydrateLimit] at hlt ⊢
        omega
      | release pre post =>
        simp only [workingCount, List.countP_append, List.countP_cons,
          beq_done_working, beq_working_working, Bool.false_eq_true, if_false, if_true]
          at ih ⊢
        simp only [hydrateLimit] at ih ⊢
        omega
  · intro s s' hstep
    cases hstep with
    | spawn ts' =>
      simp [workingCount, List.countP_append]
    | acquire pre post hlt =>
      simp only [workingCount, List.countP_append, List.countP_cons,
        beq_queued_working, beq_working_working, Bool.false_eq_true, if_false, if_true]
        at hlt ⊢
      simp only [hydrateLimit] at hlt ⊢
      omega
    | release pre post =>
      simp only [workingCount, List.countP_append, List.countP_cons,
        beq_done_working, beq_working_working, Bool.false_eq_true, if_false, if_true]
      omega

/-- Witness for C10: the state with one working task, reached by a spawn
followed by an acquire taken under the bound. -/
theorem c10_witness :
    HydrateReachable [HydratePhase.working]
      ∧ workingCount [HydratePhase.working] ≤ hydrateLimit
      ∧ HydrateStep [HydratePhase.queued] [HydratePhase.working]
      ∧ (workingCount [HydratePhase.queued] < workingCount [HydratePhase.working] →
          workingCount [HydratePhase.queued] < hydrateLimit) := by
  have h1 : HydrateStep [] [HydratePhase.queued] := HydrateStep.spawn []
  have h2 : HydrateStep [HydratePhase.queued] [HydratePhase.working] :=
    HydrateStep.acquire [] [] (by decide)
  have hr : HydrateReachable [HydratePhase.working] :=
    Relation.ReflTransGen.tail (Relation.ReflTransGen.tail Relation.ReflTransGen.refl h1) h2
  exact ⟨hr, (c10_hydrate_bounded.1 [HydratePhase.working] hr),
    h2, (c10_hydrate_bounded.2 [HydratePhase.queued] [HydratePhase.working] h2).2⟩

end Orchestrator
